import Mathlib

/-!
Verification of the pyplico packet-ingestion pipeline (`src/pyplico/packetReader.py`).

Shallow embedding notes:
* A pcap record is its capture timestamp plus the outcome of handing its raw
  bytes to the dpkt decoder (`dpkt.ethernet.Ethernet` / `dpkt.ip.IP`): the frame
  either decodes to an IP packet, decodes to a non-IP ethernet frame, or raises
  `dpkt.dpkt.UnpackError` (truncated / malformed envelope).  The reader code
  only branches on which of these three cases occurred, so the embedding
  carries the case directly; the IP packet payload is an opaque identifier.
* Timestamps are modelled as `Nat`; only their linear order matters to the code.
* The Python generator of `read_itr` is modelled as the full list of pairs it
  yields; the underlying dpkt reader in streaming mode is a list of stream
  items, one of which may be the mid-stream `ValueError` ("read from closed
  file") that dpkt raises after a premature close.
* Exceptions become `Except`; the pcap file handle becomes an explicit trace of
  open/close operations performed on it.
-/

namespace Pyplico

/-- A decoded network-layer (IP) packet, kept opaque: the reader never inspects
its fields, it only stores and forwards it. -/
structure IPPacket where
  pid : Nat
deriving DecidableEq, Repr

/-- Outcome of decoding one record's raw bytes with dpkt:
`eth.data` is an IP packet, `eth.data` is something else (non-IP), or
`dpkt.ethernet.Ethernet(packet)` raises `dpkt.dpkt.UnpackError`
(truncated or invalid envelope). -/
inductive Frame where
  | ip (p : IPPacket)
  | nonIP
  | malformed
deriving DecidableEq, Repr

/-- One pcap record: capture timestamp and the frame decode outcome. -/
structure Record where
  ts : Nat
  frame : Frame
deriving DecidableEq, Repr

/-- `PacketReader.read_packets` (packetReader.py lines 71-89): eagerly scan all
records; an IP record is appended to `packets`, a decoded non-IP record bumps
`skipped`, both bump `total`; a record raising `UnpackError` hits `continue`
before `total += 1`, so it is counted in neither `total` nor `skipped`.
Returns `(packets, total, skipped)`. -/
def read_packets : List Record → List (IPPacket × Nat) × Nat × Nat
  | [] => ([], 0, 0)
  | r :: rs =>
    let res := read_packets rs
    match r.frame with
    | .ip p => ((p, r.ts) :: res.1, res.2.1 + 1, res.2.2)
    | .nonIP => (res.1, res.2.1 + 1, res.2.2 + 1)
    | .malformed => res

/-- One event produced by the underlying dpkt pcap reader while the streaming
generator iterates: either the next record, or the `ValueError` dpkt raises
mid-stream when the file was closed prematurely. -/
inductive StreamItem where
  | record (r : Record)
  | readerFailure
deriving DecidableEq, Repr

/-- `PacketReader.read_itr` (packetReader.py lines 98-120): the generator
yields `(ip, timestamp)` for each IP record, silently skips non-IP records and
records raising `UnpackError`, and the whole loop is wrapped in
`except ValueError: pass`, so a mid-stream reader failure simply ends the
sequence.  Modelled as the list of pairs the generator yields. -/
def read_itr : List StreamItem → List (IPPacket × Nat)
  | [] => []
  | .readerFailure :: _ => []
  | .record r :: rest =>
    match r.frame with
    | .ip p => (p, r.ts) :: read_itr rest
    | .nonIP => read_itr rest
    | .malformed => read_itr rest

/-- Comparison used by `self.packets.sort(key=lambda x:x[1])`: ascending
capture timestamp. -/
def tsLE (a b : IPPacket × Nat) : Bool := a.2 ≤ b.2

/-- `list.sort(key=lambda x:x[1])`: Python's sort is stable; the embedding uses
the (stable) `List.mergeSort` with the timestamp comparison. -/
def sortByTimestamp (l : List (IPPacket × Nat)) : List (IPPacket × Nat) :=
  l.mergeSort tsLE

/-- The exceptions `PacketReader.__init__` can raise (packetReader.py
lines 38-61): `ValueError` for neither/both of file and interface,
`FileNotFoundError` when the file cannot be opened, `NotImplementedError`
for live capture on an interface. -/
inductive InitError where
  | neitherSpecified
  | bothSpecified
  | fileNotFound
  | liveCaptureNotImplemented
deriving DecidableEq, Repr

/-- Operations performed on the pcap file handle. -/
inductive FileOp where
  | openF
  | closeF
deriving DecidableEq, Repr

/-- The state of a successfully constructed `PacketReader`.  `packets_itr`
and `packets` are `none` when the corresponding attribute was never assigned
(`self.ft` is explicitly initialised to `None`).  The FlowTable lives in
`flowtable.py` (outside the reader); what the reader determines is the exact
sequence of `push` calls it issues, so `ft` records that push trace.
`fileOps` is the trace of operations on the pcap file handle over the
constructor and the whole life of the produced list/generator. -/
structure ReaderState where
  to_itr : Bool
  to_list : Bool
  to_ft : Bool
  sort : Bool
  packets_itr : Option (List (IPPacket × Nat))
  packets : Option (List (IPPacket × Nat))
  ft : Option (List IPPacket)
  fileOps : List FileOp
deriving DecidableEq, Repr

/-- `PacketReader.__init__` (packetReader.py lines 29-61).
`file` is `none` when omitted; `some none` when given but not openable;
`some (some recs)` when it opens onto the records `recs`.  `interface` is
`none` when omitted.  Branch order follows the source: neither check, both
check, then the file branch (open, then `to_itr` / `to_list` / neither), then
the interface branch.  In the `to_list` branch the file is closed right after
`read_packets`, the list is sorted when `sort or to_ft`, and when `to_ft` every
element of the (sorted) list is pushed to a fresh FlowTable in list order.
In the `to_itr` branch (and the branch taking neither) the file is opened and
never closed: no close appears anywhere in `read_itr` or `__init__` for it. -/
def PacketReader.init (file : Option (Option (List Record))) (interface : Option String)
    (to_itr to_list to_ft sort : Bool) : Except InitError ReaderState :=
  if file.isNone && interface.isNone then
    .error .neitherSpecified
  else if file.isSome && interface.isSome then
    .error .bothSpecified
  else
    match file with
    | some none => .error .fileNotFound
    | some (some recs) =>
      if to_itr then
        .ok { to_itr := to_itr, to_list := to_list, to_ft := to_ft, sort := sort,
              packets_itr := some (read_itr (recs.map StreamItem.record)),
              packets := none, ft := none, fileOps := [.openF] }
      else if to_list then
        let ps0 := (read_packets recs).1
        let ps := if sort || to_ft then sortByTimestamp ps0 else ps0
        .ok { to_itr := to_itr, to_list := to_list, to_ft := to_ft, sort := sort,
              packets_itr := none, packets := some ps,
              ft := if to_ft then some (ps.map Prod.fst) else none,
              fileOps := [.openF, .closeF] }
      else
        .ok { to_itr := to_itr, to_list := to_list, to_ft := to_ft, sort := sort,
              packets_itr := none, packets := none, ft := none,
              fileOps := [.openF] }
    | none => .error .liveCaptureNotImplemented

/-- The exception `PacketReader.get_itr` raises when `self.packets_itr` was
never assigned (`AttributeError` re-raised as
`ValueError("... was not initialised using to_itr")`). -/
inductive AccessError where
  | notInitialisedWithToItr
deriving DecidableEq, Repr

/-- `PacketReader.get_itr` (packetReader.py lines 129-136): if the attribute
exists it is returned (the constructor only ever stores the generator
`read_itr` produces, so the `isinstance` check succeeds); if the attribute was
never assigned, the `AttributeError` is turned into a `ValueError`. -/
def get_itr (s : ReaderState) : Except AccessError (Option (List (IPPacket × Nat))) :=
  match s.packets_itr with
  | some it => .ok (some it)
  | none => .error .notInitialisedWithToItr

/-- `PacketReader.get_flow_table` (packetReader.py lines 138-139). -/
def get_flow_table (s : ReaderState) : Option (List IPPacket) := s.ft

/-- The sorted-by-ascending-timestamp predicate on a materialized list. -/
def SortedByTs (l : List (IPPacket × Nat)) : Prop :=
  l.Pairwise fun a b => a.2 ≤ b.2

/-- `out` is a stable reordering of `inp`: a permutation in which the packets
sharing any one timestamp keep their original relative order. -/
def StablePermOf (out inp : List (IPPacket × Nat)) : Prop :=
  out.Perm inp ∧
    ∀ t : Nat, out.filter (fun p => p.2 == t) = inp.filter (fun p => p.2 == t)

/-- A concrete 10-record capture: 7 IP records, 2 non-IP records, 1 truncated
(malformed) record; timestamps contain a tie (3) between distinct packets. -/
def demoCapture : List Record :=
  [ ⟨5, .ip ⟨1⟩⟩, ⟨1, .nonIP⟩, ⟨3, .ip ⟨2⟩⟩, ⟨2, .malformed⟩, ⟨3, .ip ⟨3⟩⟩,
    ⟨1, .ip ⟨4⟩⟩, ⟨9, .nonIP⟩, ⟨2, .ip ⟨5⟩⟩, ⟨8, .ip ⟨6⟩⟩, ⟨0, .ip ⟨7⟩⟩ ]

/-- In `read_packets`, `skipped + len(packets) = total`: every record that
reaches `total += 1` either bumped `skipped` or was appended to `packets`. -/
theorem read_packets_skipped_add_used (rs : List Record) :
    (read_packets rs).2.2 + (read_packets rs).1.length = (read_packets rs).2.1 := by
  induction rs with
  | nil => simp [read_packets]
  | cons r rs ih =>
    cases h : r.frame <;> simp only [read_packets, h] <;> simpa using by omega

/-- The streaming generator on a failure-free reader yields exactly the
materialized packet list. -/
theorem read_itr_eq_read_packets (rs : List Record) :
    read_itr (rs.map StreamItem.record) = (read_packets rs).1 := by
  induction rs with
  | nil => simp [read_itr, read_packets]
  | cons r rs ih =>
    cases h : r.frame <;> simp [read_itr, read_packets, h, ih]

/-- C1 (counterexample): the claimed invariant
`skipped + used = total number of records in the capture file` fails on
`demoCapture` (10 records, 2 non-IP, 1 truncated): the code reports
`total = 9`, `skipped = 2`, `used = 7`, because the record raising
`UnpackError` is counted in neither `total` nor `skipped`, and
`2 + 7 ≠ 10`. -/
theorem c1_total_counterexample :
    demoCapture.length = 10 ∧
    (read_packets demoCapture).2.1 = 9 ∧
    (read_packets demoCapture).2.2 = 2 ∧
    (read_packets demoCapture).1.length = 7 ∧
    ¬((read_packets demoCapture).2.2 + (read_packets demoCapture).1.length =
        demoCapture.length) := by
  refine ⟨rfl, rfl, rfl, rfl, ?_⟩
  decide

/-- C1 (amended): in materialized mode, `skipped + used` equals the code's
`total`, which counts only the records whose frame decodes without
`UnpackError` — truncated/malformed records are excluded from both `total` and
`skipped`.  On a capture with 10 records of which 2 are non-IP and 1 is
truncated, the reported counts are `total = 9`, `skipped = 2`, `used = 7`,
and the materialized packet list has length 7. -/
theorem c1_counts_invariant :
    (∀ rs : List Record,
      (read_packets rs).2.2 + (read_packets rs).1.length = (read_packets rs).2.1) ∧
    (read_packets demoCapture).2.1 = 9 ∧
    (read_packets demoCapture).2.2 = 2 ∧
    (read_packets demoCapture).1.length = 7 :=
  ⟨read_packets_skipped_add_used, rfl, rfl, rfl⟩

/-- C2: for every capture input, the lazy sequence produced by `read_itr`
and the eagerly materialized list produced by `read_packets` (no sorting
requested) are element-wise identical `(packet, timestamp)` pairs in the same
capture order. -/
theorem c2_stream_eq_materialized :
    ∀ rs : List Record,
      read_itr (rs.map StreamItem.record) = (read_packets rs).1 :=
  read_itr_eq_read_packets

/-- C5: a mid-stream failure of the underlying reader (`ValueError` after a
premature close) silently ends the streaming sequence: the consumer receives
exactly the packets decoded before the failure — the same as normal
end-of-sequence on the preceding records — and no error value exists in the
result type to propagate. -/
theorem c5_reader_failure_is_eos :
    ∀ (pre : List Record) (post : List StreamItem),
      read_itr (pre.map StreamItem.record ++ StreamItem.readerFailure :: post) =
        read_itr (pre.map StreamItem.record) ∧
      read_itr (pre.map StreamItem.record ++ StreamItem.readerFailure :: post) =
        (read_packets pre).1 := by
  intro pre post
  have key : read_itr (pre.map StreamItem.record ++ StreamItem.readerFailure :: post) =
      read_itr (pre.map StreamItem.record) := by
    induction pre with
    | nil => simp [read_itr]
    | cons r rs ih =>
      cases h : r.frame <;> simp [read_itr, h, ih]
  exact ⟨key, key.trans (read_itr_eq_read_packets pre)⟩

/-- C7: a structurally malformed (truncated / invalid-envelope) record never
aborts the read in either mode: both `read_packets` and `read_itr` are total
functions (no error outcome exists in their types), and inserting a malformed
record anywhere in the capture leaves their output — packet list and, for
`read_packets`, the `(total, skipped)` counters — unchanged: the frame is
dropped and reading continues with the next record. -/
theorem c7_malformed_never_aborts :
    ∀ (xs ys : List Record) (t : Nat),
      read_packets (xs ++ ⟨t, .malformed⟩ :: ys) = read_packets (xs ++ ys) ∧
      read_itr ((xs ++ ⟨t, .malformed⟩ :: ys).map StreamItem.record) =
        read_itr ((xs ++ ys).map StreamItem.record) := by
  intro xs ys t
  have key : read_packets (xs ++ ⟨t, .malformed⟩ :: ys) = read_packets (xs ++ ys) := by
    induction xs with
    | nil => simp [read_packets]
    | cons r rs ih =>
      cases h : r.frame <;> simp [read_packets, h, ih]
  refine ⟨key, ?_⟩
  rw [read_itr_eq_read_packets, read_itr_eq_read_packets, key]

/-- The timestamp comparison is transitive. -/
theorem tsLE_trans : ∀ a b c : IPPacket × Nat, tsLE a b → tsLE b c → tsLE a c := by
  intro a b c hab hbc
  simp only [tsLE, decide_eq_true_eq] at *
  omega

/-- The timestamp comparison is total. -/
theorem tsLE_total : ∀ a b : IPPacket × Nat, tsLE a b || tsLE b a := by
  intro a b
  simp only [tsLE, Bool.or_eq_true, decide_eq_true_eq]
  omega

/-- The sorted list is ordered by ascending timestamp. -/
theorem sortByTimestamp_sortedByTs (l : List (IPPacket × Nat)) :
    SortedByTs (sortByTimestamp l) := by
  have h := @List.sorted_mergeSort (IPPacket × Nat) tsLE tsLE_trans tsLE_total l
  exact h.imp (by intro a b hab; simpa [tsLE] using hab)

/-- Stability of the sort: the packets carrying any one timestamp appear in
the sorted list in their original relative order. -/
theorem sortByTimestamp_filter_ts (l : List (IPPacket × Nat)) (t : Nat) :
    (sortByTimestamp l).filter (fun p => p.2 == t) =
      l.filter (fun p => p.2 == t) := by
  have hpw : (l.filter (fun p => p.2 == t)).Pairwise fun a b => tsLE a b := by
    apply List.pairwise_of_forall_mem_list
    intro a ha b hb
    have ha2 := (List.mem_filter.mp ha).2
    have hb2 := (List.mem_filter.mp hb).2
    simp only [beq_iff_eq] at ha2 hb2
    simp [tsLE, ha2, hb2]
  have h1 : List.Sublist (l.filter (fun p => p.2 == t)) (sortByTimestamp l) :=
    List.sublist_mergeSort tsLE_trans tsLE_total hpw (List.filter_sublist l)
  have h2 : List.Sublist (l.filter (fun p => p.2 == t))
      ((sortByTimestamp l).filter (fun p => p.2 == t)) := by
    have h4 := h1.filter (fun p => p.2 == t)
    rwa [List.filter_eq_self.mpr (fun a ha => (List.mem_filter.mp ha).2)] at h4
  have h3 : ((sortByTimestamp l).filter (fun p => p.2 == t)).length =
      (l.filter (fun p => p.2 == t)).length :=
    ((List.mergeSort_perm l tsLE).filter (fun p => p.2 == t)).length_eq
  exact (h2.eq_of_length h3.symm).symm

/-- The sort is a stable permutation of its input. -/
theorem sortByTimestamp_stablePermOf (l : List (IPPacket × Nat)) :
    StablePermOf (sortByTimestamp l) l :=
  ⟨List.mergeSort_perm l tsLE, sortByTimestamp_filter_ts l⟩

/-- C3: in materialized mode, whenever `to_ft` or `sort` is requested, the
exposed packet list is the stable ascending-timestamp sort of the eagerly read
list — sorting is forced even when the sort flag is false, as long as `to_ft`
holds — it is sorted (`SortedByTs`) and a stable permutation of the unsorted
read (`StablePermOf`: ties keep original relative order), and when `to_ft` is
true the FlowTable push trace is exactly the sorted sequence in sorted order,
issued only after the full list is available (the `ft` field is built from the
completed, sorted `packets`). -/
theorem c3_materialized_sorting (rs : List Record) (to_ft sort : Bool)
    (h : (sort || to_ft) = true) :
    PacketReader.init (some (some rs)) none false true to_ft sort =
      .ok { to_itr := false, to_list := true, to_ft := to_ft, sort := sort,
            packets_itr := none,
            packets := some (sortByTimestamp (read_packets rs).1),
            ft := if to_ft then
                    some ((sortByTimestamp (read_packets rs).1).map Prod.fst)
                  else none,
            fileOps := [.openF, .closeF] } ∧
    SortedByTs (sortByTimestamp (read_packets rs).1) ∧
    StablePermOf (sortByTimestamp (read_packets rs).1) (read_packets rs).1 := by
  refine ⟨?_, sortByTimestamp_sortedByTs _, sortByTimestamp_stablePermOf _⟩
  simp only [Bool.or_eq_true] at h
  simp [PacketReader.init, h]

/-- C3 (witness): instantiation at `demoCapture` with `to_ft = true` and the
sort flag false: sorting happens anyway and the push trace is the sorted
sequence. -/
theorem c3_materialized_sorting_witness :
    ((false || true) = true) ∧
    (PacketReader.init (some (some demoCapture)) none false true true false =
      .ok { to_itr := false, to_list := true, to_ft := true, sort := false,
            packets_itr := none,
            packets := some (sortByTimestamp (read_packets demoCapture).1),
            ft := if true then
                    some ((sortByTimestamp (read_packets demoCapture).1).map Prod.fst)
                  else none,
            fileOps := [.openF, .closeF] } ∧
    SortedByTs (sortByTimestamp (read_packets demoCapture).1) ∧
    StablePermOf (sortByTimestamp (read_packets demoCapture).1)
      (read_packets demoCapture).1) :=
  ⟨rfl, c3_materialized_sorting demoCapture true false rfl⟩

/-- C4: construction validation is deterministic and exhaustive: neither
source given, or both given, is a `ValueError` raised before any state is
produced (the `Except` result carries no partial state); interface-only always
fails with `NotImplementedError`; an unopenable file always fails with
`FileNotFoundError` — all at construction time, for every flag combination. -/
theorem c4_construction_validation :
    (∀ to_itr to_list to_ft sort : Bool,
      PacketReader.init none none to_itr to_list to_ft sort =
        .error .neitherSpecified) ∧
    (∀ (f : Option (List Record)) (i : String) (to_itr to_list to_ft sort : Bool),
      PacketReader.init (some f) (some i) to_itr to_list to_ft sort =
        .error .bothSpecified) ∧
    (∀ (i : String) (to_itr to_list to_ft sort : Bool),
      PacketReader.init none (some i) to_itr to_list to_ft sort =
        .error .liveCaptureNotImplemented) ∧
    (∀ to_itr to_list to_ft sort : Bool,
      PacketReader.init (some none) none to_itr to_list to_ft sort =
        .error .fileNotFound) :=
  ⟨fun _ _ _ _ => rfl, fun _ _ _ _ _ _ => rfl, fun _ _ _ _ _ => rfl,
   fun _ _ _ _ => rfl⟩

/-- C6: `get_itr` on a reader constructed in materialized mode
(`to_itr = false`, `to_list = true`) always raises the
"was not initialised using to_itr" `ValueError`, at access time — the
construction itself succeeds. -/
theorem c6_get_itr_on_materialized :
    ∀ (rs : List Record) (to_ft sort : Bool),
      (PacketReader.init (some (some rs)) none false true to_ft sort).map get_itr =
        .ok (.error .notInitialisedWithToItr) := by
  intro rs to_ft sort
  simp [PacketReader.init, get_itr, Except.map]

/-- C8 (counterexample): in streaming mode the reader resource is NOT released:
even though the generator the constructor builds is fully exhausted in this
eager model, the trace of operations on the pcap file handle contains no close
(`read_itr` and the `to_itr` branch of `__init__` contain no `close()` call),
refuting "the reader is closed/released on normal exhaustion of the
sequence". -/
theorem c8_streaming_never_closes :
    (PacketReader.init (some (some demoCapture)) none true false false false).map
        (fun s => s.fileOps.contains FileOp.closeF) = .ok false := rfl

/-- C8 (amended): the release discipline per mode: in materialized mode
(`to_list`) the file is opened and then closed right after the eager read
completes; in streaming mode (`to_itr`) the file is opened and never closed by
the library — neither on exhaustion nor on abandonment (release is left to the
runtime's garbage collector). -/
theorem c8_release_per_mode :
    ∀ (rs : List Record) (to_list to_ft sort : Bool),
      (PacketReader.init (some (some rs)) none false true to_ft sort).map
          (fun s => s.fileOps) = .ok [FileOp.openF, FileOp.closeF] ∧
      (PacketReader.init (some (some rs)) none true to_list to_ft sort).map
          (fun s => s.fileOps) = .ok [FileOp.openF] := by
  intro rs to_list to_ft sort
  constructor <;> simp [PacketReader.init, Except.map]

/-- C9: `to_itr` (the default) takes precedence over every materialized-mode
option: for any `to_list`, `to_ft`, `sort`, construction with `to_itr = true`
stores only the generator — no packet list is built, no sorting happens, no
FlowTable push ever occurs (`ft = none`), and `get_flow_table` returns
`None` even when `to_ft` was requested. -/
theorem c9_to_itr_precedence :
    ∀ (rs : List Record) (to_list to_ft sort : Bool),
      PacketReader.init (some (some rs)) none true to_list to_ft sort =
        .ok { to_itr := true, to_list := to_list, to_ft := to_ft, sort := sort,
              packets_itr := some (read_itr (rs.map StreamItem.record)),
              packets := none, ft := none, fileOps := [.openF] } ∧
      (PacketReader.init (some (some rs)) none true to_list to_ft sort).map
          get_flow_table = .ok none := by
  intro rs to_list to_ft sort
  constructor <;> simp [PacketReader.init, get_flow_table, Except.map]

/-- C10: constructing with a valid file but `to_itr = false` and
`to_list = false` succeeds, reads nothing (no list, no generator, no
FlowTable), opens the file and leaves it open (trace is a bare open), and a
subsequent `get_itr` raises the "was not initialised using to_itr" error. -/
theorem c10_neither_mode :
    ∀ (rs : List Record) (to_ft sort : Bool),
      PacketReader.init (some (some rs)) none false false to_ft sort =
        .ok { to_itr := false, to_list := false, to_ft := to_ft, sort := sort,
              packets_itr := none, packets := none, ft := none,
              fileOps := [.openF] } ∧
      (PacketReader.init (some (some rs)) none false false to_ft sort).map
          get_itr = .ok (.error .notInitialisedWithToItr) := by
  intro rs to_ft sort
  constructor <;> simp [PacketReader.init, get_itr, Except.map]

end Pyplico
